import Mathlib

/-!
# Kafka Playground — Cluster/Broker Lifecycle Control Plane

Shallow embedding of the control plane of the Kafka Playground repository.
The repository ships the dashboard front end (`control-ui/static/js/main.js`),
the startup/shutdown scripts and the README; the Flask backend the dashboard
drives (cluster registry, port allocator, broker lifecycle manager, topic
gateway, reset coordinator) is not part of the visible sources, so those
components are modelled from the specification, as marked on each definition.
Front-end logic (broker-card filtering/sorting, the default-cluster delete
guard) is embedded directly from `main.js`.
-/

namespace KafkaPlayground

/-- Error taxonomy of the control plane (spec §7). -/
inductive Err where
  | RuntimeUnavailable
  | NotFound
  | ClusterNotFound
  | TopicNotFound
  | DuplicateCluster
  | InvalidTopicSpec
  | CannotDeleteDefault
  | PortSpaceExhausted
  | AdminUnreachable
  | MalformedDescription
deriving DecidableEq, Repr

/-- Role of a declared service: broker or fixed infrastructure (spec §3, §9). -/
inductive Role where
  | broker
  | infra
deriving DecidableEq, Repr

/-- A service entry of the Orchestration Description: name, host port, role. -/
structure Service where
  name : String
  port : Nat
  role : Role
deriving DecidableEq, Repr

/-- Observed container status (running/stopped; absent = not listed). -/
inductive CStatus where
  | running
  | stopped
deriving DecidableEq, Repr

/-- A Cluster Registry record: id, display name, broker set, next ordinal. -/
structure ClusterRec where
  id : String
  name : String
  brokers : List String
  nextOrd : Nat
deriving DecidableEq, Repr

/-- Whole control-plane state: registry, Orchestration Description, observed
containers, named volumes. -/
structure St where
  registry : List ClusterRec
  services : List Service
  containers : List (String × CStatus)
  volumes : List String
deriving DecidableEq, Repr

/-- Result of a successful broker add: container name and assigned port. -/
structure BrokerInfo where
  name : String
  port : Nat
deriving DecidableEq, Repr

/-- Decidable equality for `Except`, so concrete results can be decided. -/
def exceptDecEq {ε α : Type} [DecidableEq ε] [DecidableEq α] :
    DecidableEq (Except ε α) := fun x y =>
  match x, y with
  | .ok a, .ok b =>
      if h : a = b then .isTrue (congrArg Except.ok h)
      else .isFalse (fun hc => h (Except.ok.inj hc))
  | .error a, .error b =>
      if h : a = b then .isTrue (congrArg Except.error h)
      else .isFalse (fun hc => h (Except.error.inj hc))
  | .ok _, .error _ => .isFalse (fun hc => Except.noConfusion hc)
  | .error _, .ok _ => .isFalse (fun hc => Except.noConfusion hc)

instance {ε α : Type} [DecidableEq ε] [DecidableEq α] :
    DecidableEq (Except ε α) := exceptDecEq

/-- Modelled from the spec: fixed base port, the lowest broker port in the
default cluster (spec §4.2). -/
def basePort : Nat := 9092

/-- Modelled from the spec: ports reserved by the fixed infrastructure
services (zookeeper 2181, kafka-ui 8080, control-ui 5001, jupyter 8888). -/
def reservedPorts : List Nat := [2181, 8080, 5001, 8888]

/-- Modelled from the spec: the default service set of the Orchestration
Description — the default cluster's baseline brokers kafka1..kafka3 on
9092-9094 plus the fixed infrastructure services (README, spec §8 scenario). -/
def defaultServices : List Service :=
  [⟨"zookeeper", 2181, .infra⟩,
   ⟨"kafka1", 9092, .broker⟩,
   ⟨"kafka2", 9093, .broker⟩,
   ⟨"kafka3", 9094, .broker⟩,
   ⟨"kafka-ui", 8080, .infra⟩,
   ⟨"control-ui", 5001, .infra⟩,
   ⟨"jupyter", 8888, .infra⟩]

/-- Modelled from the spec: the registry record of the always-present
`default` cluster (spec §3). -/
def defaultRec : ClusterRec :=
  ⟨"default", "Default Cluster", ["kafka1", "kafka2", "kafka3"], 4⟩

/-- Modelled from the spec: the named volume backing the persistent
development-environment workspace (Jupyter notebooks), preserved by reset
(README "preserving Jupyter notebooks", spec §4.6 step 4). -/
def workspaceVolume : String := "jupyter-notebooks"

/-- Modelled from the spec: the default named volumes of the baseline
environment. -/
def defaultVolumes : List String :=
  ["zookeeper-data", "kafka1-data", "kafka2-data", "kafka3-data",
   workspaceVolume]

/-- Modelled from the spec: the initial (baseline) state of the environment
(README, spec §8 scenario). -/
def initSt : St :=
  { registry := [defaultRec]
    services := defaultServices
    containers := defaultServices.map (fun svc => (svc.name, CStatus.running))
    volumes := defaultVolumes }

/-- Modelled from the spec: the Port Allocator's upward scan (spec §4.2),
missing from the visible sources (backend). `fuel` bounds the number of
candidates examined; exhaustion fails with `PortSpaceExhausted`. -/
def scanPort : Nat → Nat → List Nat → Except Err Nat
  | 0, _, _ => .error .PortSpaceExhausted
  | fuel + 1, p, existing =>
      if p ∈ existing ∨ p ∈ reservedPorts then scanPort fuel (p + 1) existing
      else .ok p

/-- Modelled from the spec: `nextPort(existingPorts)` of the Port Allocator
(spec §4.2), missing from the visible sources (backend): scan upward from
`basePort`, return the first port neither in `existingPorts` nor reserved by
a fixed infrastructure service; give up after 1000 candidates. -/
def nextPort (existing : List Nat) : Except Err Nat :=
  scanPort 1000 basePort existing

/-- All host ports currently declared in the Orchestration Description —
the full cross-cluster existing-port set (spec §4.4). -/
def existingPorts (s : St) : List Nat := s.services.map (·.port)

/-- Modelled from the spec: deterministic container name from cluster id and
ordinal (spec §3): default-cluster brokers are `kafka<ord>` (kafka1..kafka3,
then kafka4). -/
def brokerName (cid : String) (ord : Nat) : String :=
  if cid == "default" then "kafka" ++ toString ord
  else "kafka-" ++ cid ++ "-" ++ toString ord

/-- Modelled from the spec: the Broker Lifecycle Manager's `add(cluster_id)`
(spec §4.4), missing from the visible sources (backend): validate the cluster
exists, compute the next ordinal, request a port from the Port Allocator over
the full cross-cluster existing-port set, append the service entry, register
the broker under the cluster, issue the (asynchronous) start. On failure the
returned state is the input state unchanged. -/
def addBroker (cid : String) (s : St) : St × Except Err BrokerInfo :=
  match s.registry.find? (fun r => r.id == cid) with
  | none => (s, .error .ClusterNotFound)
  | some rec =>
      match nextPort (existingPorts s) with
      | .error e => (s, .error e)
      | .ok p =>
          let nm := brokerName cid rec.nextOrd
          ({ registry := s.registry.map (fun r =>
                if r.id == cid then
                  { r with brokers := r.brokers ++ [nm], nextOrd := r.nextOrd + 1 }
                else r)
             services := s.services ++ [⟨nm, p, .broker⟩]
             containers := s.containers ++ [(nm, .running)]
             volumes := s.volumes ++ [nm ++ "-data"] },
           .ok ⟨nm, p⟩)

/-- Modelled from the spec: step 1 of broker delete (spec §4.4) — stop the
container if running. -/
def stopStep (nm : String) (s : St) : St :=
  { s with containers := s.containers.map (fun c =>
      if c.1 == nm then (c.1, CStatus.stopped) else c) }

/-- Modelled from the spec: step 2 of broker delete — remove the container. -/
def removeContainerStep (nm : String) (s : St) : St :=
  { s with containers := s.containers.filter (fun c => c.1 != nm) }

/-- Modelled from the spec: step 3 of broker delete — remove the entry from
the Orchestration Description. -/
def removeDescStep (nm : String) (s : St) : St :=
  { s with services := s.services.filter (fun svc => svc.name != nm) }

/-- Modelled from the spec: step 4 of broker delete — unregister the broker
from its cluster's set. -/
def unregisterStep (nm : String) (s : St) : St :=
  { s with registry := s.registry.map (fun r =>
      { r with brokers := r.brokers.filter (fun b => b != nm) }) }

/-- The intermediate states of broker delete, after each step of the fixed
order stop → remove container → remove description entry → unregister
(spec §4.4): the states a crash after any prefix of steps would leave. -/
def deleteBrokerSeq (nm : String) (s : St) : List St :=
  [stopStep nm s,
   removeContainerStep nm (stopStep nm s),
   removeDescStep nm (removeContainerStep nm (stopStep nm s)),
   unregisterStep nm (removeDescStep nm (removeContainerStep nm (stopStep nm s)))]

/-- Modelled from the spec: the Broker Lifecycle Manager's `delete(name)`
(spec §4.4), missing from the visible sources (backend): stop (if running) →
remove container → remove description entry → unregister from the cluster's
broker set, in that order. Returns the removed broker's port. -/
def deleteBroker (nm : String) (s : St) : St × Except Err Nat :=
  match s.services.find? (fun svc => svc.name == nm) with
  | none => (s, .error .NotFound)
  | some svc =>
      (unregisterStep nm (removeDescStep nm (removeContainerStep nm (stopStep nm s))),
       .ok svc.port)

/-- Modelled from the spec: safe cluster identifier — non-empty,
alphanumeric/hyphen, bounded length (spec §4.3). -/
def safeName (n : String) : Bool :=
  !n.isEmpty && n.length ≤ 32 && n.data.all (fun c => c.isAlphanum || c == '-')

/-- Reference implementation of lower-casing (as in `String.toLower`) over
the underlying character list. -/
def lowerData (s : String) : List Char := s.data.map Char.toLower

/-- Modelled from the spec: the Cluster Registry's `create(name)` (spec §4.3),
missing from the visible sources (backend): reject unsafe identifiers and
case-insensitive collisions with `DuplicateCluster`, else append a record
with an empty broker set. -/
def createCluster (n : String) (s : St) : St × Except Err Unit :=
  if !safeName n || s.registry.any (fun r => lowerData r.id == lowerData n) then
    (s, .error .DuplicateCluster)
  else
    ({ s with registry := s.registry ++ [⟨n, n, [], 1⟩] }, .ok ())

/-- Modelled from the spec: the Cluster Registry's `delete(id)` (spec §4.3),
missing from the visible sources (backend): `default` is rejected with
`CannotDeleteDefault`; otherwise cascade-delete every member broker, then
remove the record. -/
def deleteCluster (cid : String) (s : St) : St × Except Err Unit :=
  if cid == "default" then (s, .error .CannotDeleteDefault)
  else
    match s.registry.find? (fun r => r.id == cid) with
    | none => (s, .error .ClusterNotFound)
    | some rec =>
        let s1 := rec.brokers.foldl (fun st b => (deleteBroker b st).1) s
        ({ s1 with registry := s1.registry.filter (fun r => r.id != cid) }, .ok ())

/-- Modelled from the spec: broker `start(name)` delegated to the runtime
adapter (spec §4.4). -/
def startBroker (nm : String) (s : St) : St :=
  { s with containers := s.containers.map (fun c =>
      if c.1 == nm then (c.1, CStatus.running) else c) }

/-- Modelled from the spec: broker `stop(name)` delegated to the runtime
adapter (spec §4.4). -/
def stopBroker (nm : String) (s : St) : St := stopStep nm s

/-- Modelled from the spec: does reset keep this named volume? Default
volumes stay; the persistent workspace volume is explicitly excluded from
removal (spec §4.6 step 4). -/
def keepVolume (v : String) : Bool :=
  defaultVolumes.contains v || v == workspaceVolume

/-- Modelled from the spec: the state after the Reset Coordinator's `reset()`
(spec §4.6), missing from the visible sources (backend): brokers stopped and
removed, description rewritten to the fixed default service set, non-default
cluster records removed, non-default volumes removed (workspace volume
excluded), default service set restarted. -/
def resetState (s : St) : St :=
  { registry := [defaultRec]
    services := defaultServices
    containers := defaultServices.map (fun svc => (svc.name, CStatus.running))
    volumes := s.volumes.filter keepVolume }

/-- Modelled from the spec: the human-readable audit actions reported by
`reset()` (spec §4.6). -/
def resetActions (s : St) : List String :=
  ["Stopped and removed all broker containers",
   "Restored orchestration description to default services",
   "Removed non-default cluster records",
   "Removed " ++ toString (s.volumes.filter (fun v => !keepVolume v)).length
     ++ " non-default volumes",
   "Restarted default services"]

/-- Modelled from the spec: the Reset Coordinator's `reset()` (spec §4.6);
total in this model, always succeeding with the action list. -/
def reset (s : St) : Except Err (St × List String) :=
  .ok (resetState s, resetActions s)

/-- Modelled from the spec: the number of the cluster's brokers whose
container is observed `running` (spec §4.5). -/
def runningCount (s : St) (cid : String) : Nat :=
  match s.registry.find? (fun r => r.id == cid) with
  | none => 0
  | some rec =>
      (rec.brokers.filter (fun b =>
        match s.containers.lookup b with
        | some CStatus.running => true
        | _ => false)).length

/-- Modelled from the spec: the Topic Administration Gateway's
`create(cluster_id, name, partitions, replication_factor)` (spec §4.5),
missing from the visible sources (backend): `InvalidTopicSpec` if
partitions < 1 or the replication factor exceeds the cluster's running
broker count, then `AdminUnreachable` if no broker is running. -/
def createTopic (s : St) (cid : String) (_nm : String) (parts rf : Int) :
    Except Err Unit :=
  match s.registry.find? (fun r => r.id == cid) with
  | none => .error .ClusterNotFound
  | some _ =>
      if parts < 1 ∨ rf > (runningCount s cid : Int) then .error .InvalidTopicSpec
      else if runningCount s cid = 0 then .error .AdminUnreachable
      else .ok ()

/-- A control-plane operation (for stating reachability invariants). -/
inductive Op where
  | addB (cid : String)
  | delB (nm : String)
  | createC (n : String)
  | deleteC (cid : String)
  | startB (nm : String)
  | stopB (nm : String)
  | resetO
deriving DecidableEq, Repr

/-- Apply one operation to the state (errors leave the state unchanged). -/
def applyOp (op : Op) (s : St) : St :=
  match op with
  | .addB cid => (addBroker cid s).1
  | .delB nm => (deleteBroker nm s).1
  | .createC n => (createCluster n s).1
  | .deleteC cid => (deleteCluster cid s).1
  | .startB nm => startBroker nm s
  | .stopB nm => stopBroker nm s
  | .resetO => resetState s

/-- Apply a sequence of operations from the baseline state. -/
def applyOps (ops : List Op) : St :=
  ops.foldl (fun s op => applyOp op s) initSt

/-- Apply a sequence of broker `add` calls (by cluster id) to a state. -/
def runAdds (cids : List String) (s : St) : St :=
  cids.foldl (fun st c => (addBroker c st).1) s

/-- Reference implementation of JavaScript `String.prototype.startsWith`
(and of Lean's `String.startsWith`) over the underlying character list. -/
def strStartsWith (s pre : String) : Bool := pre.data.isPrefixOf s.data

/-- Embedded from `control-ui/static/js/main.js` (`updateBrokers`, lines
226-263): the dashboard lists as broker cards exactly the container names
that start with `kafka` and are not `kafka-ui`, rendered in sorted order
(`Object.keys(...).filter(n => n.startsWith('kafka') && n !== 'kafka-ui')`
followed by `names.sort()`). -/
def updateBrokersList (containers : List (String × String)) : List String :=
  List.insertionSort (fun a b => a ≤ b)
    ((containers.map Prod.fst).filter
      (fun n => strStartsWith n "kafka" && n != "kafka-ui"))

/-- Embedded from `control-ui/static/js/main.js` (`deleteCurrentCluster`,
lines 158-175): the front end returns early for the `default` cluster and
otherwise issues a DELETE request for the current cluster id. -/
def deleteCurrentClusterRequest (currentCluster : String) : Option String :=
  if currentCluster == "default" then none else some currentCluster

/-! ## Invariants -/

/-- All declared host ports are pairwise distinct (spec §3: a broker's port
is unique across the whole environment). -/
def PortsOk (s : St) : Prop := (existingPorts s).Nodup

/-- The `default` cluster has a record in the registry (spec §3 invariant). -/
def DefaultExists (s : St) : Prop := ∃ r ∈ s.registry, r.id = "default"

/-- No dangling live container: every running container is declared in the
Orchestration Description (spec §4.4 delete ordering guarantee). -/
def CoveredSt (s : St) : Prop :=
  ∀ c ∈ s.containers, c.2 = CStatus.running → c.1 ∈ s.services.map (·.name)

/-- The baseline state with every container observed stopped (for the topic
gateway's no-running-broker behaviour). -/
def allStopped : St :=
  { initSt with containers := initSt.containers.map (fun c => (c.1, CStatus.stopped)) }

instance (s : St) : Decidable (PortsOk s) := by
  unfold PortsOk; infer_instance

instance (s : St) : Decidable (DefaultExists s) := by
  unfold DefaultExists; infer_instance

instance (s : St) : Decidable (CoveredSt s) := by
  unfold CoveredSt; infer_instance

/-! ## Port allocator lemmas -/

/-- A successful scan returns the first free candidate at or above `p`. -/
lemma scanPort_ok_spec :
    ∀ fuel p l q, scanPort fuel p l = .ok q →
      p ≤ q ∧ q ∉ l ∧ q ∉ reservedPorts ∧
        ∀ r, p ≤ r → r < q → r ∈ l ∨ r ∈ reservedPorts := by
  intro fuel
  induction fuel with
  | zero => intro p l q h; exact absurd h (by simp [scanPort])
  | succ n ih =>
      intro p l q h
      rw [scanPort] at h
      by_cases c : p ∈ l ∨ p ∈ reservedPorts
      · rw [if_pos c] at h
        obtain ⟨h1, h2, h3, h4⟩ := ih (p + 1) l q h
        refine ⟨by omega, h2, h3, ?_⟩
        intro r hr1 hr2
        rcases Nat.eq_or_lt_of_le hr1 with he | hl
        · exact he ▸ c
        · exact h4 r hl hr2
      · rw [if_neg c] at h
        cases h
        push_neg at c
        exact ⟨Nat.le_refl p, c.1, c.2, fun r hr1 hr2 => absurd hr1 (by omega)⟩

/-- The scan is a function of the membership of the existing-port set. -/
lemma scanPort_ext :
    ∀ fuel p l1 l2, (∀ x, x ∈ l1 ↔ x ∈ l2) →
      scanPort fuel p l1 = scanPort fuel p l2 := by
  intro fuel
  induction fuel with
  | zero => intro p l1 l2 _; rfl
  | succ n ih =>
      intro p l1 l2 h
      rw [scanPort, scanPort]
      exact if_congr (or_congr_left (h p)) (ih (p + 1) l1 l2 h) rfl

/-- If every candidate in the scanned window is taken, the scan exhausts. -/
lemma scanPort_exhaust :
    ∀ fuel p l, (∀ q, p ≤ q → q < p + fuel → q ∈ l ∨ q ∈ reservedPorts) →
      scanPort fuel p l = .error .PortSpaceExhausted := by
  intro fuel
  induction fuel with
  | zero => intro p l _; rfl
  | succ n ih =>
      intro p l h
      rw [scanPort, if_pos (h p (Nat.le_refl p) (by omega))]
      exact ih (p + 1) l (fun q h1 h2 => h q (by omega) (by omega))

/-- A freshly allocated port is not among the existing ports. -/
lemma nextPort_ok_not_mem {l : List Nat} {q : Nat} (h : nextPort l = .ok q) :
    q ∉ l :=
  (scanPort_ok_spec 1000 basePort l q h).2.1

/-! ## Invariant preservation -/

/-- `add` keeps declared ports pairwise distinct. -/
lemma portsOk_addBroker (cid : String) (s : St) (h : PortsOk s) :
    PortsOk (addBroker cid s).1 := by
  unfold addBroker
  cases hf : s.registry.find? (fun r => r.id == cid) with
  | none => exact h
  | some rec =>
      cases hn : nextPort (existingPorts s) with
      | error e => exact h
      | ok p =>
          simp only [PortsOk, existingPorts, List.map_append, List.map_cons,
            List.map_nil, List.nodup_append]
          refine ⟨h, List.nodup_singleton p, ?_⟩
          intro a ha hb
          simp only [List.mem_singleton] at hb
          subst hb
          exact nextPort_ok_not_mem hn ha

/-- `add` never removes or rewrites an existing service entry. -/
lemma mem_services_addBroker (cid : String) (s : St) {svc : Service}
    (h : svc ∈ s.services) : svc ∈ (addBroker cid s).1.services := by
  unfold addBroker
  cases hf : s.registry.find? (fun r => r.id == cid) with
  | none => exact h
  | some rec =>
      cases hn : nextPort (existingPorts s) with
      | error e => exact h
      | ok p => exact List.mem_append_left _ h

/-- Service entries persist across any sequence of `add` calls. -/
lemma mem_services_runAdds (adds : List String) (s : St) {svc : Service}
    (h : svc ∈ s.services) : svc ∈ (runAdds adds s).services := by
  induction adds generalizing s with
  | nil => exact h
  | cons c cs ih => exact ih _ (mem_services_addBroker c s h)

/-- Broker delete keeps declared ports pairwise distinct. -/
lemma portsOk_deleteBroker (nm : String) (s : St) (h : PortsOk s) :
    PortsOk (deleteBroker nm s).1 := by
  unfold deleteBroker
  cases hf : s.services.find? (fun svc => svc.name == nm) with
  | none => exact h
  | some svc =>
      have hsub : ((s.services.filter (fun svc => svc.name != nm)).map (·.port)).Sublist
          (s.services.map (·.port)) :=
        (List.filter_sublist _).map _
      exact h.sublist hsub

/-- Cluster delete keeps declared ports pairwise distinct. -/
lemma portsOk_deleteCluster (cid : String) (s : St) (h : PortsOk s) :
    PortsOk (deleteCluster cid s).1 := by
  unfold deleteCluster
  by_cases hd : (cid == "default") = true
  · rw [if_pos hd]; exact h
  · rw [if_neg hd]
    cases hf : s.registry.find? (fun r => r.id == cid) with
    | none => exact h
    | some rec =>
        have : ∀ (l : List String) (t : St), PortsOk t →
            PortsOk (l.foldl (fun st b => (deleteBroker b st).1) t) := by
          intro l
          induction l with
          | nil => intro t ht; exact ht
          | cons b bs ih => intro t ht; exact ih _ (portsOk_deleteBroker b t ht)
        exact this rec.brokers s h

/-- Every control-plane operation keeps declared ports pairwise distinct. -/
lemma portsOk_applyOp (op : Op) (s : St) (h : PortsOk s) :
    PortsOk (applyOp op s) := by
  cases op with
  | addB cid => exact portsOk_addBroker cid s h
  | delB nm => exact portsOk_deleteBroker nm s h
  | createC n =>
      show PortsOk (createCluster n s).1
      unfold createCluster
      split
      · exact h
      · exact h
  | deleteC cid => exact portsOk_deleteCluster cid s h
  | startB nm => exact h
  | stopB nm => exact h
  | resetO =>
      show PortsOk (resetState s)
      show (defaultServices.map (·.port)).Nodup
      decide

/-- Every reachable state has pairwise-distinct declared ports. -/
lemma portsOk_applyOps (ops : List Op) : PortsOk (applyOps ops) := by
  have : ∀ (l : List Op) (t : St), PortsOk t →
      PortsOk (l.foldl (fun s op => applyOp op s) t) := by
    intro l
    induction l with
    | nil => intro t ht; exact ht
    | cons op l ih => intro t ht; exact ih _ (portsOk_applyOp op t ht)
  exact this ops initSt (by decide)

/-- Mapping an id-preserving update over the registry keeps `default`. -/
lemma exists_default_map {l : List ClusterRec} (f : ClusterRec → ClusterRec)
    (hf : ∀ r, (f r).id = r.id) (h : ∃ r ∈ l, r.id = "default") :
    ∃ r ∈ l.map f, r.id = "default" := by
  obtain ⟨r, hr, hid⟩ := h
  exact ⟨f r, List.mem_map_of_mem f hr, by rw [hf, hid]⟩

/-- `add` keeps the `default` cluster registered. -/
lemma defaultExists_addBroker (cid : String) (s : St) (h : DefaultExists s) :
    DefaultExists (addBroker cid s).1 := by
  unfold addBroker
  cases hf : s.registry.find? (fun r => r.id == cid) with
  | none => exact h
  | some rec =>
      cases hn : nextPort (existingPorts s) with
      | error e => exact h
      | ok p =>
          refine exists_default_map _ (fun r => ?_) h
          split <;> rfl

/-- Broker delete keeps the `default` cluster registered. -/
lemma defaultExists_deleteBroker (nm : String) (s : St) (h : DefaultExists s) :
    DefaultExists (deleteBroker nm s).1 := by
  unfold deleteBroker
  cases hf : s.services.find? (fun svc => svc.name == nm) with
  | none => exact h
  | some svc => exact exists_default_map _ (fun r => rfl) h

/-- Cluster delete keeps the `default` cluster registered. -/
lemma defaultExists_deleteCluster (cid : String) (s : St) (h : DefaultExists s) :
    DefaultExists (deleteCluster cid s).1 := by
  unfold deleteCluster
  by_cases hd : (cid == "default") = true
  · rw [if_pos hd]; exact h
  · rw [if_neg hd]
    cases hf : s.registry.find? (fun r => r.id == cid) with
    | none => exact h
    | some rec =>
        have h1 : DefaultExists (rec.brokers.foldl (fun st b => (deleteBroker b st).1) s) := by
          have : ∀ (l : List String) (t : St), DefaultExists t →
              DefaultExists (l.foldl (fun st b => (deleteBroker b st).1) t) := by
            intro l
            induction l with
            | nil => intro t ht; exact ht
            | cons b bs ih => intro t ht; exact ih _ (defaultExists_deleteBroker b t ht)
          exact this rec.brokers s h
        obtain ⟨r, hr, hid⟩ := h1
        refine ⟨r, List.mem_filter.mpr ⟨hr, ?_⟩, hid⟩
        rw [hid]
        simp only [bne_iff_ne, ne_eq]
        intro e
        rw [← e] at hd
        exact hd (by decide)

/-- Every control-plane operation keeps the `default` cluster registered. -/
lemma defaultExists_applyOp (op : Op) (s : St) (h : DefaultExists s) :
    DefaultExists (applyOp op s) := by
  cases op with
  | addB cid => exact defaultExists_addBroker cid s h
  | delB nm => exact defaultExists_deleteBroker nm s h
  | createC n =>
      show DefaultExists (createCluster n s).1
      unfold createCluster
      split
      · exact h
      · obtain ⟨r, hr, hid⟩ := h
        exact ⟨r, List.mem_append_left _ hr, hid⟩
  | deleteC cid => exact defaultExists_deleteCluster cid s h
  | startB nm => exact h
  | stopB nm => exact h
  | resetO =>
      show DefaultExists (resetState s)
      show ∃ r ∈ [defaultRec], r.id = "default"
      decide

/-! ## Coverage of live containers across broker-delete steps -/

/-- Stopping a container preserves live-container coverage. -/
lemma coveredSt_stopStep (nm : String) (s : St) (h : CoveredSt s) :
    CoveredSt (stopStep nm s) := by
  intro c hc hrun
  simp only [stopStep, List.mem_map] at hc
  obtain ⟨c0, hc0, hfc⟩ := hc
  by_cases hb : (c0.1 == nm) = true
  · rw [if_pos hb] at hfc
    rw [← hfc] at hrun
    exact absurd hrun (fun hr => CStatus.noConfusion hr)
  · rw [if_neg hb] at hfc
    rw [← hfc] at hrun ⊢
    exact h c0 hc0 hrun

/-- Removing the container preserves live-container coverage. -/
lemma coveredSt_removeContainerStep (nm : String) (s : St) (h : CoveredSt s) :
    CoveredSt (removeContainerStep nm s) := by
  intro c hc hrun
  exact h c (List.mem_filter.mp hc).1 hrun

/-- Removing the description entry after the container is gone preserves
live-container coverage. -/
lemma coveredSt_removeDescStep (nm : String) (s : St) (h : CoveredSt s) :
    CoveredSt (removeDescStep nm (removeContainerStep nm s)) := by
  intro c hc hrun
  have hc' : c ∈ s.containers ∧ (c.1 != nm) = true := List.mem_filter.mp hc
  have hmem := h c hc'.1 hrun
  rw [List.mem_map] at hmem
  obtain ⟨svc, hsvc, hname⟩ := hmem
  rw [List.mem_map]
  refine ⟨svc, List.mem_filter.mpr ⟨hsvc, ?_⟩, hname⟩
  rw [hname]
  exact hc'.2

/-- Unregistering from the cluster set preserves live-container coverage. -/
lemma coveredSt_unregisterStep (nm : String) (t : St) (h : CoveredSt t) :
    CoveredSt (unregisterStep nm t) :=
  h

/-! ## Claim theorems -/

/-- Filtering volumes by the reset-survivor predicate is idempotent. -/
lemma filter_keepVolume_idem (l : List String) :
    (l.filter keepVolume).filter keepVolume = l.filter keepVolume := by
  simp [List.filter_filter]

/-- Claim C2: `reset()` is idempotent — for every state, resetting the
already-reset state yields the same state again, and the second invocation
returns success (with its action list), even when the non-default records it
would remove are already absent. -/
theorem reset_idempotent (s : St) :
    resetState (resetState s) = resetState s ∧
    reset (resetState s) = .ok (resetState s, resetActions (resetState s)) := by
  have hid : resetState (resetState s) = resetState s := by
    simp only [resetState, filter_keepVolume_idem]
  refine ⟨hid, ?_⟩
  show Except.ok (resetState (resetState s), resetActions (resetState s)) = _
  rw [hid]

/-- Claim C3: deleting the `default` cluster always fails with
`CannotDeleteDefault` and leaves the state unchanged; every control-plane
operation preserves the existence of the `default` cluster; and the front
end (`deleteCurrentCluster`, main.js:158-175) never even issues a delete
request for `default`. -/
theorem default_cluster_protected :
    (∀ s : St, deleteCluster "default" s = (s, .error .CannotDeleteDefault)) ∧
    (∀ (op : Op) (s : St), DefaultExists s → DefaultExists (applyOp op s)) ∧
    (∀ ops : List Op, DefaultExists (applyOps ops)) ∧
    deleteCurrentClusterRequest "default" = none := by
  refine ⟨fun s => ?_, fun op s h => defaultExists_applyOp op s h, fun ops => ?_, rfl⟩
  · simp [deleteCluster]
  · have : ∀ (l : List Op) (t : St), DefaultExists t →
        DefaultExists (l.foldl (fun s op => applyOp op s) t) := by
      intro l
      induction l with
      | nil => intro t ht; exact ht
      | cons op l ih => intro t ht; exact ih _ (defaultExists_applyOp op t ht)
    exact this ops initSt (by decide)

/-- Claim C4: `add(cluster_id)` for a cluster id with no registry record
fails with `ClusterNotFound` and returns the state — including the
Orchestration Description — exactly unchanged (no partial write). -/
theorem addBroker_unknown_cluster (s : St) (cid : String)
    (h : ∀ r ∈ s.registry, r.id ≠ cid) :
    addBroker cid s = (s, .error .ClusterNotFound) := by
  have hf : s.registry.find? (fun r => r.id == cid) = none :=
    List.find?_eq_none.mpr (fun r hr => by simpa using h r hr)
  unfold addBroker
  rw [hf]

/-- Witness for C4 at a concrete unknown cluster id. -/
theorem addBroker_unknown_cluster_witness :
    addBroker "ghost" initSt = (initSt, .error .ClusterNotFound) :=
  addBroker_unknown_cluster initSt "ghost" (by decide)

/-- Claim C5: `nextPort` is a deterministic function of the existing-port
set; a returned port is the first candidate at or above the base port that
is neither existing nor reserved; if 1000 candidates are all taken it fails
with `PortSpaceExhausted`; and in the reference scenario the broker added to
`default` after kafka1..kafka3 gets 9095 while the first broker of `beta`
gets 9096 (continuing across all ports, not from beta's own base). -/
theorem nextPort_first_free :
    (∀ l1 l2 : List Nat, (∀ x, x ∈ l1 ↔ x ∈ l2) → nextPort l1 = nextPort l2) ∧
    (∀ l q, nextPort l = .ok q →
      basePort ≤ q ∧ q ∉ l ∧ q ∉ reservedPorts ∧
        ∀ r, basePort ≤ r → r < q → r ∈ l ∨ r ∈ reservedPorts) ∧
    (∀ l, (∀ q, basePort ≤ q → q < basePort + 1000 → q ∈ l ∨ q ∈ reservedPorts) →
      nextPort l = .error .PortSpaceExhausted) ∧
    (addBroker "default" initSt).2 = .ok ⟨"kafka4", 9095⟩ ∧
    (addBroker "beta" (createCluster "beta" (addBroker "default" initSt).1).1).2 =
      .ok ⟨"kafka-beta-1", 9096⟩ := by
  refine ⟨fun l1 l2 h => scanPort_ext 1000 basePort l1 l2 h,
    fun l q h => scanPort_ok_spec 1000 basePort l q h,
    fun l h => scanPort_exhaust 1000 basePort l h, by decide, by decide⟩

/-- Claim C8: `reset()` keeps exactly the default volumes and the persistent
workspace volume: a volume survives reset iff it was present and is either a
default volume or the workspace volume; in particular the workspace volume
is never removed by reset. -/
theorem reset_preserves_workspace (s : St) :
    (∀ v, v ∈ (resetState s).volumes ↔
      (v ∈ s.volumes ∧ (v ∈ defaultVolumes ∨ v = workspaceVolume))) ∧
    (workspaceVolume ∈ s.volumes → workspaceVolume ∈ (resetState s).volumes) := by
  have hmem : ∀ v, v ∈ (resetState s).volumes ↔
      (v ∈ s.volumes ∧ (v ∈ defaultVolumes ∨ v = workspaceVolume)) := by
    intro v
    show v ∈ s.volumes.filter keepVolume ↔ _
    rw [List.mem_filter]
    simp [keepVolume]
  exact ⟨hmem, fun h => (hmem workspaceVolume).mpr ⟨h, Or.inr rfl⟩⟩

/-- Claim C1: in every state reachable by any sequence of control-plane
operations, all declared host ports are pairwise distinct (no two brokers
ever hold the same port, across all clusters simultaneously); and while a
broker's record persists through further `add` calls, its service entry —
with its port — is preserved verbatim, so the port is never reassigned to a
different broker. -/
theorem broker_ports_unique (ops : List Op) :
    (existingPorts (applyOps ops)).Nodup ∧
    ∀ (adds : List String), ∀ svc ∈ (applyOps ops).services,
      svc ∈ (runAdds adds (applyOps ops)).services :=
  ⟨portsOk_applyOps ops, fun adds _svc h => mem_services_runAdds adds _ h⟩

/-- Claim C6 (theorem): after a successful `delete(broker)` the broker is no
longer a member of any cluster's broker set, has no Orchestration
Description entry, and its port is absent from the existing-port set (hence
eligible for reuse by a future add). -/
theorem deleteBroker_frees (s : St) (nm : String) (s' : St) (p : Nat)
    (hOk : PortsOk s) (h : deleteBroker nm s = (s', .ok p)) :
    (∀ r ∈ s'.registry, nm ∉ r.brokers) ∧
    (∀ svc ∈ s'.services, svc.name ≠ nm) ∧
    p ∉ existingPorts s' := by
  unfold deleteBroker at h
  cases hf : s.services.find? (fun svc => svc.name == nm) with
  | none => rw [hf] at h; exact absurd h (by simp)
  | some svc0 =>
      rw [hf] at h
      injection h with h1 h2
      injection h2 with h2
      subst h1
      subst h2
      refine ⟨?_, ?_, ?_⟩
      · intro r hr
        simp only [unregisterStep, removeDescStep, removeContainerStep, stopStep,
          List.mem_map] at hr
        obtain ⟨r0, _, hfr⟩ := hr
        rw [← hfr]
        intro hmem
        simp only [List.mem_filter, bne_self_eq_false] at hmem
        exact Bool.false_ne_true hmem.2
      · intro svc hsvc
        have hsvc' : svc ∈ s.services.filter (fun v => v.name != nm) := hsvc
        exact bne_iff_ne.mp (List.mem_filter.mp hsvc').2
      · intro hmem
        have hmem' : svc0.port ∈
            (s.services.filter (fun v => v.name != nm)).map (·.port) := hmem
        rw [List.mem_map] at hmem'
        obtain ⟨svc, hsvcf, hport⟩ := hmem'
        have hsvc := List.mem_filter.mp hsvcf
        have h0 : svc0 ∈ s.services := List.mem_of_find?_eq_some hf
        have hname0 : svc0.name = nm := by
          have := List.find?_some hf
          simpa using this
        have heq : svc = svc0 :=
          List.inj_on_of_nodup_map (f := fun v : Service => v.port) hOk
            hsvc.1 h0 hport
        rw [heq, hname0] at hsvc
        simp only [bne_self_eq_false] at hsvc
        exact Bool.false_ne_true hsvc.2

/-- Witness for C6 at the reference scenario: deleting kafka2 frees 9093 and
the next default add reuses it. -/
theorem deleteBroker_frees_witness :
    (deleteBroker "kafka2" (addBroker "default" initSt).1).2 = .ok 9093 ∧
    9093 ∉ existingPorts (deleteBroker "kafka2" (addBroker "default" initSt).1).1 ∧
    (addBroker "default" (deleteBroker "kafka2" (addBroker "default" initSt).1).1).2 =
      .ok ⟨"kafka5", 9093⟩ := by
  refine ⟨by decide, ?_, by decide⟩
  exact (deleteBroker_frees (addBroker "default" initSt).1 "kafka2"
    (deleteBroker "kafka2" (addBroker "default" initSt).1).1 9093
    (by decide) (by decide)).2.2

/-- Claim C7: broker delete runs stop → remove container → remove
description entry → unregister, in that order; after every prefix of those
steps, live-container coverage holds (no running container without a
description entry — the worst divergence is an orphaned description entry),
and a successful delete lands exactly in the final state of that sequence. -/
theorem deleteBroker_ordered_no_dangling (s : St) (nm : String)
    (h : CoveredSt s) :
    (∀ t ∈ deleteBrokerSeq nm s, CoveredSt t) ∧
    (∀ (s' : St) (p : Nat), deleteBroker nm s = (s', .ok p) →
      s' = unregisterStep nm (removeDescStep nm
        (removeContainerStep nm (stopStep nm s)))) := by
  constructor
  · intro t ht
    have h1 := coveredSt_stopStep nm s h
    have h2 := coveredSt_removeContainerStep nm _ h1
    have h3 := coveredSt_removeDescStep nm _ h1
    have h4 := coveredSt_unregisterStep nm _ h3
    simp only [deleteBrokerSeq, List.mem_cons, List.not_mem_nil, or_false] at ht
    rcases ht with rfl | rfl | rfl | rfl
    · exact h1
    · exact h2
    · exact h3
    · exact h4
  · intro s' p hdel
    unfold deleteBroker at hdel
    cases hf : s.services.find? (fun svc => svc.name == nm) with
    | none => rw [hf] at hdel; exact absurd hdel (by simp)
    | some svc0 =>
        rw [hf] at hdel
        injection hdel with h1 _
        exact h1.symm

/-- Witness for C7 at the baseline state and broker kafka2. -/
theorem deleteBroker_ordered_no_dangling_witness :
    CoveredSt (stopStep "kafka2" initSt) ∧
    (deleteBroker "kafka2" initSt).1 =
      unregisterStep "kafka2" (removeDescStep "kafka2"
        (removeContainerStep "kafka2" (stopStep "kafka2" initSt))) := by
  refine ⟨(deleteBroker_ordered_no_dangling initSt "kafka2" (by decide)).1 _ ?_,
    (deleteBroker_ordered_no_dangling initSt "kafka2" (by decide)).2
      (deleteBroker "kafka2" initSt).1 9093 (by decide)⟩
  show stopStep "kafka2" initSt ∈ deleteBrokerSeq "kafka2" initSt
  simp [deleteBrokerSeq]

/-- Claim C9 (counterexample): with no broker running and a well-formed
request (partitions = 1, replication_factor = 1), topic create fails with
`InvalidTopicSpec` — because the replication factor already exceeds the
running broker count of zero — not with `AdminUnreachable`, so the claim's
"fails with AdminUnreachable whenever no broker is Running" is false as
stated. -/
theorem createTopic_admin_counterexample :
    runningCount allStopped "default" = 0 ∧
    createTopic allStopped "default" "t" 1 1 = .error .InvalidTopicSpec ∧
    createTopic allStopped "default" "t" 1 1 ≠ .error .AdminUnreachable :=
  ⟨by decide, by decide, by decide⟩

/-- Claim C9 (amended): for an existing cluster, topic create fails with
`InvalidTopicSpec` whenever partitions < 1 or the replication factor exceeds
the running broker count; it fails with `AdminUnreachable` when the spec is
otherwise valid but no broker is running; and only otherwise does it create
the topic. -/
theorem createTopic_validation (s : St) (cid nm : String) (parts rf : Int)
    (rec : ClusterRec)
    (hf : s.registry.find? (fun r => r.id == cid) = some rec) :
    ((parts < 1 ∨ rf > (runningCount s cid : Int)) →
      createTopic s cid nm parts rf = .error .InvalidTopicSpec) ∧
    ((1 ≤ parts ∧ rf ≤ (runningCount s cid : Int) ∧ runningCount s cid = 0) →
      createTopic s cid nm parts rf = .error .AdminUnreachable) ∧
    ((1 ≤ parts ∧ rf ≤ (runningCount s cid : Int) ∧ 0 < runningCount s cid) →
      createTopic s cid nm parts rf = .ok ()) := by
  unfold createTopic
  rw [hf]
  refine ⟨fun h => ?_, fun h => ?_, fun h => ?_⟩
  · rw [if_pos h]
  · have hno : ¬(parts < 1 ∨ rf > (runningCount s cid : Int)) := by
      rcases h with ⟨h1, h2, _⟩
      rintro (hc | hc) <;> omega
    rw [if_neg hno, if_pos h.2.2]
  · have hno : ¬(parts < 1 ∨ rf > (runningCount s cid : Int)) := by
      rcases h with ⟨h1, h2, _⟩
      rintro (hc | hc) <;> omega
    have hnz : ¬(runningCount s cid = 0) := by omega
    rw [if_neg hno, if_neg hnz]

/-- Witness for C9's amended theorem at concrete states: an invalid spec on
the baseline, an unreachable admin with every broker stopped, and a valid
create on the baseline. -/
theorem createTopic_validation_witness :
    createTopic initSt "default" "t" 0 1 = .error .InvalidTopicSpec ∧
    createTopic allStopped "default" "t" 1 0 = .error .AdminUnreachable ∧
    createTopic initSt "default" "t" 1 3 = .ok () := by
  refine ⟨(createTopic_validation initSt "default" "t" 0 1 defaultRec
      (by decide)).1 (Or.inl (by decide)),
    (createTopic_validation allStopped "default" "t" 1 0 defaultRec
      (by decide)).2.1 ⟨by decide, by decide, by decide⟩,
    (createTopic_validation initSt "default" "t" 1 3 defaultRec
      (by decide)).2.2 ⟨by decide, by decide, by decide⟩⟩

/-- Claim C10: a container appears as a broker card iff its name starts with
`kafka` and is not exactly `kafka-ui`; the cards are in sorted name order;
and in particular `zookeeper` and `kafka-ui` are never rendered as brokers
(main.js `updateBrokers`, lines 226-263). -/
theorem updateBrokers_cards (cs : List (String × String)) :
    (∀ n, n ∈ updateBrokersList cs ↔
      (n ∈ cs.map Prod.fst ∧ strStartsWith n "kafka" = true ∧ n ≠ "kafka-ui")) ∧
    List.Sorted (fun a b : String => a ≤ b) (updateBrokersList cs) ∧
    "zookeeper" ∉ updateBrokersList cs ∧
    "kafka-ui" ∉ updateBrokersList cs := by
  have hmem : ∀ n, n ∈ updateBrokersList cs ↔
      (n ∈ cs.map Prod.fst ∧ strStartsWith n "kafka" = true ∧ n ≠ "kafka-ui") := by
    intro n
    unfold updateBrokersList
    rw [List.mem_insertionSort, List.mem_filter]
    simp [and_assoc]
  refine ⟨hmem, List.sorted_insertionSort _ _, ?_, ?_⟩
  · intro h
    have := ((hmem "zookeeper").mp h).2.1
    exact absurd this (by decide)
  · intro h
    exact ((hmem "kafka-ui").mp h).2.2 rfl

end KafkaPlayground
